import Mathlib

/-!
Shallow embedding of the anisotropic Kuwahara WebGPU pipeline
(`skyrmo/anisotropic_kuwahara_webgpu`): the uniform-buffer serialization in
`Kuwahara.service.ts`, the keyed texture store in `Textures.service`
(`Editor.service.ts` file), the pipeline orchestration of `runKuwahara`, and
the four WGSL compute shaders (structure tensor, separable Gaussian blur,
eigen-analysis, anisotropic Kuwahara filter).  GPU floating-point values are
modelled as real numbers; machine integers as `Int`/`Nat`; the uniform buffer
words as exact rationals.
-/

/-! ### Parameter block and uniform-buffer serialization
Embedding of `KuwaharaParams` (src/types, `part_000`) and of the 32-byte
buffer construction in `gaussianBlurPass` (Kuwahara.service.ts lines 200-226).
The buffer is modelled as a list of 4-byte words: word `i` occupies byte
offsets `4*i .. 4*i+3`. -/

/-- The TypeScript-side `KuwaharaParams` value struct.  `kernelSize` is
serialized through an `Int32Array` view, so it is modelled as `Int`; the
remaining fields go through a `Float32Array` view and are modelled as exact
rationals. -/
structure KuwaharaParamsTS where
  kernelSize : Int
  sharpness : ℚ
  hardness : ℚ
  alpha : ℚ
  zeroCrossing : ℚ
  zeta : ℚ
  sigma : ℚ
deriving DecidableEq

/-- One 4-byte word of the uniform buffer: a 32-bit signed integer write, a
32-bit float write, or never-written (zero-initialized) padding. -/
inductive BufWord where
  | int (v : Int)
  | float (v : ℚ)
  | pad
deriving DecidableEq

/-- Embedding of `const effectiveZeta = this.kuwaharaParams.zeta || 2.0 /
(this.kuwaharaParams.kernelSize / 2)` (Kuwahara.service.ts lines 207-208).
JavaScript `||` takes the right operand exactly when `zeta` is falsy, i.e.
(for our NaN-free rational model) when `zeta = 0`. -/
def effectiveZeta (p : KuwaharaParamsTS) : ℚ :=
  if p.zeta = 0 then 2 / ((p.kernelSize : ℚ) / 2) else p.zeta

/-- Embedding of the `ArrayBuffer(32)` construction in `gaussianBlurPass`
(Kuwahara.service.ts lines 211-224): `intView[0] = kernelSize`,
`floatView[1..6] = sharpness, hardness, alpha, zeroCrossing, effectiveZeta,
sigma`; word 7 (bytes 28-31) is never written. -/
def gaussianBlurPassBuffer (p : KuwaharaParamsTS) : List BufWord :=
  [.int p.kernelSize,
   .float p.sharpness,
   .float p.hardness,
   .float p.alpha,
   .float p.zeroCrossing,
   .float (effectiveZeta p),
   .float p.sigma,
   .pad]

/-- WGSL scalar types appearing in the `KuwaharaParams` uniform struct. -/
inductive WgslType where
  | i32
  | f32
deriving DecidableEq

/-- Field list, in declaration order, of the GPU-side `KuwaharaParams`
uniform struct as declared identically in `blur.wgsl` lines 5-13 and in the
Kuwahara filter shader (`part_002` lines 10-18). -/
def kuwaharaParamsStructGPU : List (String × WgslType) :=
  [("kernelSize", .i32),
   ("sharpness", .f32),
   ("hardness", .f32),
   ("alpha", .f32),
   ("zeroCrossing", .f32),
   ("zeta", .f32),
   ("sigma", .f32)]

/-- WGSL layout: `i32` and `f32` both have size and alignment 4, so field `i`
of the struct sits at byte offset `4*i`. -/
def wgslFieldOffset (i : ℕ) : ℕ := 4 * i

/-- Round a byte size up to the 16-byte alignment required for uniform-block
struct sizes. -/
def roundUp16 (n : ℕ) : ℕ := 16 * ((n + 15) / 16)

/-- Size in bytes of the GPU-side uniform struct: 7 four-byte fields rounded
up to 16-byte alignment. -/
def wgslUniformSize : ℕ := roundUp16 (4 * kuwaharaParamsStructGPU.length)

/-- The WGSL scalar type a written buffer word conforms to (padding conforms
to none). -/
def wordType : BufWord → Option WgslType
  | .int _ => some .i32
  | .float _ => some .f32
  | .pad => none

/-! ### Texture store and pipeline orchestration
Embedding of `TextureManagerService` (JS `Map`-backed keyed store) and of the
stage sequencing in `KuwaharaService.runKuwahara`.  Texture contents are
abstracted by a type parameter; only presence/absence of keys matters to the
claims. -/

/-- Keyed texture store: association list modelling the JS
`Map<string, ManagedTexture>`; the first binding of a key is its value. -/
def Store (τ : Type) : Type := List (String × τ)

/-- Embedding of `Map.get` / `getTexture`. -/
def storeGet {τ : Type} (σ : Store τ) (k : String) : Option τ :=
  (σ.find? (fun p => p.1 == k)).map Prod.snd

/-- Embedding of `Map.set` / `setTexture`: bind `k` to `v`, shadowing any
previous binding. -/
def storeSet {τ : Type} (σ : Store τ) (k : String) (v : τ) : Store τ :=
  (k, v) :: σ.filter (fun p => ¬ p.1 == k)

/-- Embedding of `Map.delete` as used by `destroyTexture`: remove the binding
of `k` (the GPU-side `texture.destroy()` has no store-visible effect beyond
the removal). -/
def destroyTexture {τ : Type} (σ : Store τ) (k : String) : Store τ :=
  σ.filter (fun p => ¬ p.1 == k)

/-- Embedding of `destroyAll` (Editor.service.ts lines 115-120): destroy every
managed texture and `Map.clear` the store. -/
def destroyAll {τ : Type} (_σ : Store τ) : Store τ := []

/-- Embedding of `ImageEditorService.loadImage` (Editor.service.ts lines
21-35) at the store level: `destroyAll` the previous textures, then store the
freshly decoded image under the key "original". -/
def loadImage {τ : Type} (σ : Store τ) (img : τ) : Store τ :=
  storeSet (destroyAll σ) "original" img

/-- One compute stage of the pipeline, described by the store keys it reads
and the store key it writes. -/
structure Stage where
  reads : List String
  writes : String
deriving DecidableEq

/-- The five dispatches issued by `runKuwahara` (Kuwahara.service.ts lines
106-120), in program order, with the texture keys each one reads
(`getTexture` calls guarded by a throw) and writes (`setTexture`):
structure-tensor computation, horizontal blur, vertical blur, eigenvector
analysis, anisotropic Kuwahara filtering. -/
def kuwaharaStages : List Stage :=
  [⟨["original"], "structure_tensor"⟩,
   ⟨["structure_tensor"], "horizontal_blur"⟩,
   ⟨["horizontal_blur"], "blur_output"⟩,
   ⟨["blur_output"], "eigenvector_output"⟩,
   ⟨["original", "eigenvector_output"], "kuwahara_output"⟩]

/-- The derived texture keys produced by the pipeline from "original". -/
def derivedKeys : List String :=
  ["structure_tensor", "horizontal_blur", "blur_output",
   "eigenvector_output", "kuwahara_output"]

/-- Run one list of stages in order over the store, threading writes; a stage
whose required input key is absent throws (modelled as `Except.error` naming
the missing key), aborting the remaining stages.  `fresh` abstracts the
freshly allocated output texture of each stage. -/
def runStages {τ : Type} (fresh : τ) : List Stage → Store τ → Except String (Store τ)
  | [], σ => .ok σ
  | s :: rest, σ =>
    match s.reads.find? (fun k => (storeGet σ k).isNone) with
    | some missing => .error missing
    | none => runStages fresh rest (storeSet σ s.writes fresh)

/-- Embedding of `runKuwahara`: the five stages in sequence over the store. -/
def runKuwahara {τ : Type} (fresh : τ) (σ : Store τ) : Except String (Store τ) :=
  runStages fresh kuwaharaStages σ

/-! ### WGSL scalar and vector primitives
Real-number semantics for the WGSL builtins the shaders use.  `clamp` on
scalars is `min(max(e, low), high)`; `atan2` is the argument of the complex
number `x + y*i`. -/

noncomputable section

/-- WGSL `clamp` on floats: `min(max(e, low), high)`. -/
def wclamp (e lo hi : ℝ) : ℝ := min (max e lo) hi

/-- WGSL `clamp` on 32-bit signed integers. -/
def iclamp (e lo hi : ℤ) : ℤ := min (max e lo) hi

/-- WGSL `atan2(y, x)`: the angle of the point `(x, y)`, in `(-π, π]`. -/
def atan2 (y x : ℝ) : ℝ := Complex.arg ⟨x, y⟩

/-- A WGSL `vec3<f32>` value. -/
abbrev Vec3 := Fin 3 → ℝ

/-- A WGSL `vec4<f32>` value. -/
abbrev Vec4 := Fin 4 → ℝ

/-- Build a `vec4` from a `vec3` and a scalar, as in `vec4f(c, 1.0)`. -/
def vec3to4 (c : Vec3) (w : ℝ) : Vec4 := ![c 0, c 1, c 2, w]

/-- The GPU-side `KuwaharaParams` uniform struct (blur.wgsl lines 5-13 and
the filter shader lines 10-18): `kernelSize: i32` and six `f32` fields. -/
structure KuwaharaParamsGPU where
  kernelSize : ℤ
  sharpness : ℝ
  hardness : ℝ
  alpha : ℝ
  zeroCrossing : ℝ
  zeta : ℝ
  sigma : ℝ

/-! ### Structure-tensor shader (structure-tensor.wgsl) -/

/-- Horizontal Sobel kernel `sobelX`, rows indexed by `dy+1`, columns by
`dx+1` (structure-tensor.wgsl lines 8-12). -/
def sobelX : Fin 3 → Fin 3 → ℝ :=
  ![![-1, 0, 1],
    ![-2, 0, 2],
    ![-1, 0, 1]]

/-- Vertical Sobel kernel `sobelY` (structure-tensor.wgsl lines 15-19). -/
def sobelY : Fin 3 → Fin 3 → ℝ :=
  ![![-1, -2, -1],
    ![0, 0, 0],
    ![1, 2, 1]]

/-- Embedding of `rgb2gray`: `dot(color, vec3f(0.299, 0.587, 0.114))`. -/
def rgb2gray (color : Vec3) : ℝ :=
  color 0 * 0.299 + color 1 * 0.587 + color 2 * 0.114

/-- Embedding of `sampleLuminance` (structure-tensor.wgsl lines 28-32):
clamp the coordinates into `[0, w-1] × [0, h-1]`, load, convert to
luminance.  The texture is modelled as a total function on `ℤ × ℤ`; only
the clamped range is ever read. -/
def sampleLuminance (img : ℤ → ℤ → Vec3) (w h : ℕ) (cx cy : ℤ) : ℝ :=
  rgb2gray (img (iclamp cx 0 ((w : ℤ) - 1)) (iclamp cy 0 ((h : ℤ) - 1)))

/-- The horizontal Sobel gradient `Sx` accumulated by the 3×3 loop of
`computeMain` (structure-tensor.wgsl lines 45-61): kernel index `(dy, dx)`
reads the neighbor at offset `(dx - 1, dy - 1)`. -/
def sobelGradX (img : ℤ → ℤ → Vec3) (w h : ℕ) (cx cy : ℤ) : ℝ :=
  ∑ dy : Fin 3, ∑ dx : Fin 3,
    sampleLuminance img w h (cx + ((dx : ℤ) - 1)) (cy + ((dy : ℤ) - 1)) * sobelX dy dx

/-- The vertical Sobel gradient `Sy` of the same loop. -/
def sobelGradY (img : ℤ → ℤ → Vec3) (w h : ℕ) (cx cy : ℤ) : ℝ :=
  ∑ dy : Fin 3, ∑ dx : Fin 3,
    sampleLuminance img w h (cx + ((dx : ℤ) - 1)) (cy + ((dy : ℤ) - 1)) * sobelY dy dx

/-- Embedding of the structure-tensor `computeMain` (lines 34-78): out-of-range
invocations store nothing (`none`); in-range pixels store
`(Sx², Sy², Sx·Sy, 1)` with no normalization by the Sobel kernel sum. -/
def structureTensorMain (img : ℤ → ℤ → Vec3) (w h : ℕ) (cx cy : ℕ) : Option Vec4 :=
  if cx ≥ w ∨ cy ≥ h then none
  else
    let sx := sobelGradX img w h cx cy
    let sy := sobelGradY img w h cx cy
    some ![sx * sx, sy * sy, sx * sy, 1]

/-! ### Separable Gaussian blur shader (blur.wgsl) -/

/-- Embedding of `gaussianWeight` (blur.wgsl lines 16-19):
`exp(-x² / (2·σ²))`. -/
def gaussianWeight (x sigma : ℝ) : ℝ :=
  Real.exp (-(x * x) / (2 * (sigma * sigma)))

/-- Embedding of `horizontalBlur` (blur.wgsl lines 21-40): weighted sum along
the row with x-coordinates clamped into `[0, w-1]`, divided by the sum of the
sampled weights. -/
def horizontalBlur (img : ℤ → ℤ → Vec4) (w _h : ℕ) (cx cy : ℤ) (sigma : ℝ)
    (radius : ℤ) : Vec4 :=
  let sum : Vec4 :=
    ∑ dx ∈ Finset.Icc (-radius) radius,
      gaussianWeight (dx : ℝ) sigma • img (iclamp (cx + dx) 0 ((w : ℤ) - 1)) cy
  let weightSum : ℝ := ∑ dx ∈ Finset.Icc (-radius) radius, gaussianWeight (dx : ℝ) sigma
  fun i => sum i / weightSum

/-- Embedding of `verticalBlur` (blur.wgsl lines 42-61): the same convolution
along the column, y-coordinates clamped into `[0, h-1]`. -/
def verticalBlur (img : ℤ → ℤ → Vec4) (_w h : ℕ) (cx cy : ℤ) (sigma : ℝ)
    (radius : ℤ) : Vec4 :=
  let sum : Vec4 :=
    ∑ dy ∈ Finset.Icc (-radius) radius,
      gaussianWeight (dy : ℝ) sigma • img cx (iclamp (cy + dy) 0 ((h : ℤ) - 1))
  let weightSum : ℝ := ∑ dy ∈ Finset.Icc (-radius) radius, gaussianWeight (dy : ℝ) sigma
  fun i => sum i / weightSum

/-- Embedding of the `horizontalMain` entry point (blur.wgsl lines 63-74):
guard, then `horizontalBlur` with `σ = params.sigma` and
`radius = params.kernelSize`. -/
def blurHorizontalMain (img : ℤ → ℤ → Vec4) (w h : ℕ) (cx cy : ℕ)
    (p : KuwaharaParamsGPU) : Option Vec4 :=
  if cx ≥ w ∨ cy ≥ h then none
  else some (horizontalBlur img w h cx cy p.sigma p.kernelSize)

/-- Embedding of the `verticalMain` entry point (blur.wgsl lines 76-87). -/
def blurVerticalMain (img : ℤ → ℤ → Vec4) (w h : ℕ) (cx cy : ℕ)
    (p : KuwaharaParamsGPU) : Option Vec4 :=
  if cx ≥ w ∨ cy ≥ h then none
  else some (verticalBlur img w h cx cy p.sigma p.kernelSize)

/-! ### Eigen-analysis shader (`eigenvector.wgsl`, source file `part_001`) -/

/-- The shader's `EPSILON` constant (`part_001` line 5). -/
def EPSILON : ℝ := 1e-10

/-- Embedding of `computeEigenvalues` (`part_001` lines 29-47): returns
`(λ1, λ2)` from the closed-form 2×2 symmetric eigenvalue formula, with the
discriminant clamped to be non-negative before the square root. -/
def computeEigenvalues (gxx gyy gxy : ℝ) : ℝ × ℝ :=
  let trace := gxx + gyy
  let det := gxx * gyy - gxy * gxy
  let discriminant := trace * trace * 0.25 - det
  let sqrtDisc := Real.sqrt (max discriminant 0)
  let halfTrace := trace * 0.5
  (halfTrace + sqrtDisc, halfTrace - sqrtDisc)

/-- Embedding of `computeEigenvectorAngle` (`part_001` lines 49-56):
`θ = 0.5 · atan2(2·G_xy, G_xx - G_yy)`. -/
def computeEigenvectorAngle (gxx gyy gxy : ℝ) : ℝ :=
  0.5 * atan2 (2 * gxy) (gxx - gyy)

/-- Embedding of `computeAnisotropy` (`part_001` lines 58-71): `0` when
`λ1 + λ2 < EPSILON`, otherwise `clamp((λ1-λ2)/(λ1+λ2+EPSILON), 0, 1)`. -/
def computeAnisotropy (lambda1 lambda2 : ℝ) : ℝ :=
  let sum := lambda1 + lambda2
  let diff := lambda1 - lambda2
  if sum < EPSILON then 0 else wclamp (diff / (sum + EPSILON)) 0 1

/-- Embedding of the eigen-analysis `computeMain` (`part_001` lines 90-123):
read the smoothed tensor `(G_xx, G_yy, G_xy)` from the r/g/b channels and
store `(cos θ, sin θ, anisotropy, λ1)`. -/
def eigenMain (img : ℕ → ℕ → Vec4) (w h : ℕ) (cx cy : ℕ) : Option Vec4 :=
  if cx ≥ w ∨ cy ≥ h then none
  else
    let tensor := img cx cy
    let gxx := tensor 0
    let gyy := tensor 1
    let gxy := tensor 2
    let eigenvalues := computeEigenvalues gxx gyy gxy
    let theta := computeEigenvectorAngle gxx gyy gxy
    let anisotropy := computeAnisotropy eigenvalues.1 eigenvalues.2
    some ![Real.cos theta, Real.sin theta, anisotropy, eigenvalues.1]

/-! ### Anisotropic Kuwahara filter shader (`kuwahara.wgsl`, source `part_002`) -/

/-- The filter shader's `EPS` constant (`part_002` line 22). -/
def EPS : ℝ := 1e-6

/-- The filter shader's `SQRT2_OVER_2` constant (`part_002` line 21), the
decimal literal from the source. -/
def SQRT2_OVER_2 : ℝ := 0.70710678118654752440

/-- Embedding of the filter's `sampleTexture` (`part_002` lines 31-34):
load the original texture with coordinates clamped into bounds. -/
def sampleTexture (img : ℤ → ℤ → Vec3) (w h : ℕ) (cx cy : ℤ) : Vec3 :=
  img (iclamp cx 0 ((w : ℤ) - 1)) (iclamp cy 0 ((h : ℤ) - 1))

/-- Embedding of `computePolynomialWeights` (`part_002` lines 38-82): the 8
polynomial sector weights of the point `v` in unit-circle space, sectors
ordered 0=N, 1=NE, 2=W, 3=NW, 4=S, 5=SW, 6=E, 7=SE; the diagonal sectors use
`v` rotated by +45°. -/
def computePolynomialWeights (vx vy zeta eta : ℝ) : Fin 8 → ℝ :=
  let vxx := zeta - eta * vx * vx
  let vyy := zeta - eta * vy * vy
  let rx := SQRT2_OVER_2 * (vx - vy)
  let ry := SQRT2_OVER_2 * (vx + vy)
  let rxx := zeta - eta * rx * rx
  let ryy := zeta - eta * ry * ry
  fun k => match k with
  | 0 => max 0 (vy + vxx) * max 0 (vy + vxx)
  | 1 => max 0 (ry + rxx) * max 0 (ry + rxx)
  | 2 => max 0 (-vx + vyy) * max 0 (-vx + vyy)
  | 3 => max 0 (-rx + ryy) * max 0 (-rx + ryy)
  | 4 => max 0 (-vy + vxx) * max 0 (-vy + vxx)
  | 5 => max 0 (-ry + rxx) * max 0 (-ry + rxx)
  | 6 => max 0 (vx + vyy) * max 0 (vx + vyy)
  | 7 => max 0 (rx + ryy) * max 0 (rx + ryy)

/-- Embedding of the `eta` derivation inside the filter's `computeMain`
(`part_002` lines 144-154): `(zeta + cos(zeroCrossing)) / sin²(zeroCrossing)`
when `|sin(zeroCrossing)| > EPS`, else the fallback `zeta`. -/
def computeEta (zeta zeroCrossing : ℝ) : ℝ :=
  let sinZeroCross := Real.sin zeroCrossing
  if |sinZeroCross| > EPS then
    (zeta + Real.cos zeroCrossing) / (sinZeroCross * sinZeroCross)
  else zeta

/-- Embedding of the ellipse semi-axis `a` computed in the filter's
`computeMain` (`part_002` lines 103-118):
`max(kernelRadius · clamp((alpha + anisotropy)/max(alpha, EPS), 0.1, 2.0), 1e-3)`
with `kernelRadius = kernelSize · 0.5`. -/
def ellipseAxisA (p : KuwaharaParamsGPU) (anisotropy : ℝ) : ℝ :=
  let safeAlpha := max p.alpha EPS
  let kernelRadius := (p.kernelSize : ℝ) * 0.5
  max (kernelRadius * wclamp ((p.alpha + anisotropy) / safeAlpha) 0.1 2.0) 1e-3

/-- Embedding of the ellipse semi-axis `b` of the same lines:
`max(kernelRadius · clamp(max(alpha, EPS)/max(alpha + anisotropy, EPS), 0.1, 2.0), 1e-3)`. -/
def ellipseAxisB (p : KuwaharaParamsGPU) (anisotropy : ℝ) : ℝ :=
  let safeAlpha := max p.alpha EPS
  let kernelRadius := (p.kernelSize : ℝ) * 0.5
  let denomAB := max (p.alpha + anisotropy) EPS
  max (kernelRadius * wclamp (safeAlpha / denomAB) 0.1 2.0) 1e-3

/-- Accumulated statistics of one sector: `(colorSum, colorSqSum, weightSum)`
(the `SectorStatistics` struct, `part_002` lines 24-28). -/
abbrev SectorAcc := Vec3 × Vec3 × ℝ

/-- Embedding of the accepted-sample body of the filter's sampling loop
(`part_002` lines 178-209): saturate the sampled color, compute the 8
polynomial weights, skip the sample entirely (add nothing) when their sum is
`≤ EPS`, otherwise add to each sector `k` the contribution with final weight
`(polyWeight k / polyWeightSum) · exp(-3.125·|v|²)`. -/
def sampleDelta (vx vy : ℝ) (color : Vec3) (zeta eta : ℝ) : Fin 8 → SectorAcc :=
  let saturatedColor : Vec3 := fun i => wclamp (color i) 0 1
  let polyWeights := computePolynomialWeights vx vy zeta eta
  let weightSum := ∑ k : Fin 8, polyWeights k
  if weightSum ≤ EPS then 0
  else
    let gaussian := Real.exp (-3.125 * (vx * vx + vy * vy))
    fun k =>
      let finalWeight := polyWeights k / weightSum * gaussian
      (fun i => saturatedColor i * finalWeight,
       fun i => saturatedColor i * saturatedColor i * finalWeight,
       finalWeight)

/-- One iteration of the filter's bounding-box loop (`part_002` lines
165-212): map the pixel offset `(x, y)` through the combined scale-rotation
`SR`, reject it when outside the unit circle, otherwise contribute the
accepted-sample delta for the clamped sample at `coords + (x, y)`. -/
def kuwaharaLoopBody (orig : ℤ → ℤ → Vec3) (w h : ℕ) (cx cy : ℤ)
    (sr00 sr01 sr10 sr11 zeta eta : ℝ) (x y : ℤ) : Fin 8 → SectorAcc :=
  let vx := sr00 * (x : ℝ) + sr01 * (y : ℝ)
  let vy := sr10 * (x : ℝ) + sr11 * (y : ℝ)
  if vx * vx + vy * vy ≤ 1 then
    sampleDelta vx vy (sampleTexture orig w h (cx + x) (cy + y)) zeta eta
  else 0

/-- One iteration of the selection loop in the filter's `computeMain`
(`part_002` lines 218-250): for a sector with accumulated weight above `EPS`,
compute the mean, the channel-wise clamped variance, the scalar `sigma2`, the
selection weight `1 / (1 + max(max(hardness,0)·1000·sigma2, 0)^(0.5·sharpness))`,
and return the pair of the sector's weighted color contribution and its
selection weight; sectors at or below `EPS` contribute nothing. -/
def sectorContribution (p : KuwaharaParamsGPU) (s : SectorAcc) : Vec3 × ℝ :=
  if s.2.2 > EPS then
    let sectorMean : Vec3 := fun i => s.1 i / s.2.2
    let secondMoment : Vec3 := fun i => s.2.1 i / s.2.2
    let variancePos : Vec3 :=
      fun i => max (secondMoment i - sectorMean i * sectorMean i) 0
    let sigma2 := variancePos 0 + variancePos 1 + variancePos 2
    let hardnessPos := max p.hardness 0
    let baseClamped := max (hardnessPos * 1000 * sigma2) 0
    let exponent := 0.5 * p.sharpness
    let selectionWeight := 1 / (1 + baseClamped ^ exponent)
    (fun i => sectorMean i * selectionWeight, selectionWeight)
  else (0, 0)

/-- Embedding of the selection-and-blend tail of the filter's `computeMain`
(`part_002` lines 214-263): the per-sector contributions are summed, divided
by the total selection weight when it exceeds `EPS` (else falling back to the
clamped original sample), and the result is clamped to `[0, 1]`. -/
def kuwaharaBlend (p : KuwaharaParamsGPU) (sectors : Fin 8 → SectorAcc)
    (fallback : Vec3) : Vec3 :=
  let finalColor : Vec3 := ∑ k : Fin 8, (sectorContribution p (sectors k)).1
  let totalSelectionWeight : ℝ := ∑ k : Fin 8, (sectorContribution p (sectors k)).2
  let result : Vec3 :=
    if totalSelectionWeight > EPS then fun i => finalColor i / totalSelectionWeight
    else fallback
  fun i => wclamp (result i) 0 1

/-- Embedding of the filter's full `computeMain` (`part_002` lines 84-264):
guard, eigen data read, ellipse axes, scale-rotation transform, conservative
bounding box, sector accumulation over the box, blend, and the final
`vec4(clampedResult, 1.0)` store. -/
def kuwaharaMain (orig : ℤ → ℤ → Vec3) (eigen : ℕ → ℕ → Vec4) (w h : ℕ)
    (cx cy : ℕ) (p : KuwaharaParamsGPU) : Option Vec4 :=
  if cx ≥ w ∨ cy ≥ h then none
  else
    let eigenData := eigen cx cy
    let cosTheta := eigenData 0
    let sinTheta := eigenData 1
    let anisotropy := eigenData 2
    let a := ellipseAxisA p anisotropy
    let b := ellipseAxisB p anisotropy
    let sr00 := (1 / a) * cosTheta
    let sr01 := (1 / a) * (-sinTheta)
    let sr10 := (1 / b) * sinTheta
    let sr11 := (1 / b) * cosTheta
    let maxX : ℤ := ⌈Real.sqrt (a * a * (cosTheta * cosTheta) + b * b * (sinTheta * sinTheta))⌉
    let maxY : ℤ := ⌈Real.sqrt (a * a * (sinTheta * sinTheta) + b * b * (cosTheta * cosTheta))⌉
    let eta := computeEta p.zeta p.zeroCrossing
    let sectors : Fin 8 → SectorAcc :=
      ∑ y ∈ Finset.Icc (-maxY) maxY, ∑ x ∈ Finset.Icc (-maxX) maxX,
        kuwaharaLoopBody orig w h cx cy sr00 sr01 sr10 sr11 p.zeta eta x y
    let result := kuwaharaBlend p sectors (sampleTexture orig w h cx cy)
    some (vec3to4 result 1.0)

end

/-! ### Concrete inputs used by the witnesses -/

noncomputable section

/-- A constant color image on integer coordinates. -/
def constImage3 (c : Vec3) : ℤ → ℤ → Vec3 := fun _ _ => c

/-- A constant 4-channel image on integer coordinates. -/
def constImage4 (c : Vec4) : ℤ → ℤ → Vec4 := fun _ _ => c

/-- A constant 4-channel image on natural coordinates. -/
def constImage4N (c : Vec4) : ℕ → ℕ → Vec4 := fun _ _ => c

/-- A mid-gray color. -/
def grayHalf : Vec3 := ![1/2, 1/2, 1/2]

end

/-! ## Theorems -/

/-- Helper: running a concatenation of stage lists runs the first list, and,
only on success, the second from the resulting store. -/
theorem runStages_append {τ : Type} (fresh : τ) (l1 l2 : List Stage) (σ : Store τ) :
    runStages fresh (l1 ++ l2) σ =
      match runStages fresh l1 σ with
      | .ok σ' => runStages fresh l2 σ'
      | .error e => .error e := by
  induction l1 generalizing σ with
  | nil => rfl
  | cons s rest ih =>
    rw [List.cons_append]
    show (match s.reads.find? (fun k => (storeGet σ k).isNone) with
      | some missing => Except.error missing
      | none => runStages fresh (rest ++ l2) (storeSet σ s.writes fresh)) = _
    cases h : s.reads.find? (fun k => (storeGet σ k).isNone) with
    | some missing => simp [runStages, h]
    | none => simp [runStages, h, ih]

/-- C1, counterexample to the claim as stated: with caller parameters
`kernelSize = 4`, `zeta = 0`, the 4-byte float at byte offset 20 (word 5) of
the uniform buffer written by `gaussianBlurPass` is `1` (the effective zeta
`2/(kernelSize/2)`), not the caller's `zeta` field. -/
theorem c1_offset20_not_zeta_counterexample :
    (gaussianBlurPassBuffer ⟨4, 1, 1, 1, 1, 0, 5⟩).get? 5 ≠
      some (BufWord.float (KuwaharaParamsTS.mk 4 1 1 1 1 0 5).zeta) ∧
    (gaussianBlurPassBuffer ⟨4, 1, 1, 1, 1, 0, 5⟩).get? 5 = some (BufWord.float 1) := by
  constructor
  · simp [gaussianBlurPassBuffer, effectiveZeta]
  · show some (BufWord.float (effectiveZeta ⟨4, 1, 1, 1, 1, 0, 5⟩)) = _
    simp [effectiveZeta]
    norm_num

/-- C1 (amended): the uniform buffer written by `gaussianBlurPass` is exactly
32 bytes (8 four-byte words, the size of the GPU-side `KuwaharaParams`
uniform struct); word 0 (byte offset 0) is `kernelSize` as a 4-byte signed
integer; words 1-6 (byte offsets 4, 8, 12, 16, 20, 24) are the floats
`sharpness`, `hardness`, `alpha`, `zeroCrossing`, the *effective* zeta
(the caller's `zeta`, replaced by `2/(kernelSize/2)` when it is zero), and
`sigma`; word 7 (bytes 28-31) is reserved padding; and the written word kinds
match the GPU-side struct's field order and types, field `i` at byte offset
`4·i`. -/
theorem c1_buffer_layout (p : KuwaharaParamsTS) :
    4 * (gaussianBlurPassBuffer p).length = wgslUniformSize ∧
    wgslUniformSize = 32 ∧
    (gaussianBlurPassBuffer p).get? 0 = some (.int p.kernelSize) ∧
    (gaussianBlurPassBuffer p).get? 1 = some (.float p.sharpness) ∧
    (gaussianBlurPassBuffer p).get? 2 = some (.float p.hardness) ∧
    (gaussianBlurPassBuffer p).get? 3 = some (.float p.alpha) ∧
    (gaussianBlurPassBuffer p).get? 4 = some (.float p.zeroCrossing) ∧
    (gaussianBlurPassBuffer p).get? 5 = some (.float (effectiveZeta p)) ∧
    (gaussianBlurPassBuffer p).get? 6 = some (.float p.sigma) ∧
    (gaussianBlurPassBuffer p).get? 7 = some .pad ∧
    ((gaussianBlurPassBuffer p).map wordType).take kuwaharaParamsStructGPU.length =
      kuwaharaParamsStructGPU.map (fun f => some f.2) ∧
    (∀ i : ℕ, wgslFieldOffset i = 4 * i) :=
  ⟨rfl, rfl, rfl, rfl, rfl, rfl, rfl, rfl, rfl, rfl, rfl, fun _ => rfl⟩

/-- C10: the float serialized at byte offset 20 (word 5) of the uniform
buffer is `2.0/(kernelSize/2)` — equivalently `4/kernelSize` — exactly when
the caller's `zeta` is zero, and the caller's `zeta` unchanged otherwise. -/
theorem c10_effective_zeta_serialization (p : KuwaharaParamsTS) :
    (p.zeta = 0 →
      (gaussianBlurPassBuffer p).get? 5 =
        some (.float (2 / ((p.kernelSize : ℚ) / 2))) ∧
      2 / ((p.kernelSize : ℚ) / 2) = 4 / (p.kernelSize : ℚ)) ∧
    (p.zeta ≠ 0 →
      (gaussianBlurPassBuffer p).get? 5 = some (.float p.zeta)) := by
  constructor
  · intro h
    constructor
    · simp [gaussianBlurPassBuffer, effectiveZeta, h]
    · rw [div_div_eq_mul_div]
      norm_num
  · intro h
    simp [gaussianBlurPassBuffer, effectiveZeta, h]

/-- Witness for C10, at `zeta = 0` (kernelSize 4) and at `zeta = 3`. -/
theorem c10_effective_zeta_serialization_witness :
    (KuwaharaParamsTS.mk 4 1 1 1 1 0 5).zeta = 0 ∧
    (gaussianBlurPassBuffer ⟨4, 1, 1, 1, 1, 0, 5⟩).get? 5 =
      some (.float (2 / (((KuwaharaParamsTS.mk 4 1 1 1 1 0 5).kernelSize : ℚ) / 2))) ∧
    (KuwaharaParamsTS.mk 4 1 1 1 1 3 5).zeta ≠ 0 ∧
    (gaussianBlurPassBuffer ⟨4, 1, 1, 1, 1, 3, 5⟩).get? 5 = some (.float 3) :=
  ⟨rfl,
   ((c10_effective_zeta_serialization ⟨4, 1, 1, 1, 1, 0, 5⟩).1 rfl).1,
   by norm_num,
   (c10_effective_zeta_serialization ⟨4, 1, 1, 1, 1, 3, 5⟩).2 (by norm_num)⟩

/-- C8: in any `runKuwahara` run, if the stages before stage `s` succeed and
then one of `s`'s required keyed textures is absent from the texture store,
the run throws (an error naming that key) and no later stage executes: the
whole run's result is exactly that error, independent of the remaining
stages. -/
theorem c8_missing_input_aborts_run {τ : Type} (fresh : τ) (σ σ' : Store τ)
    (pre : List Stage) (s : Stage) (post : List Stage) (k : String)
    (hsplit : kuwaharaStages = pre ++ s :: post)
    (hpre : runStages fresh pre σ = .ok σ')
    (hmiss : s.reads.find? (fun key => (storeGet σ' key).isNone) = some k) :
    runKuwahara fresh σ = .error k := by
  rw [runKuwahara, hsplit, runStages_append, hpre]
  show runStages fresh (s :: post) σ' = .error k
  rw [runStages, hmiss]

/-- Witness for C8: on an empty texture store the very first stage
(structure tensor, requiring "original") aborts the whole run. -/
theorem c8_missing_input_aborts_run_witness :
    kuwaharaStages =
      [] ++ (Stage.mk ["original"] "structure_tensor") ::
        [⟨["structure_tensor"], "horizontal_blur"⟩,
         ⟨["horizontal_blur"], "blur_output"⟩,
         ⟨["blur_output"], "eigenvector_output"⟩,
         ⟨["original", "eigenvector_output"], "kuwahara_output"⟩] ∧
    runStages (0 : ℕ) [] ([] : Store ℕ) = .ok [] ∧
    ["original"].find? (fun key => (storeGet ([] : Store ℕ) key).isNone) =
      some ("original") ∧
    runKuwahara (0 : ℕ) ([] : Store ℕ) = Except.error ("original") :=
  ⟨rfl, rfl, rfl,
   c8_missing_input_aborts_run 0 [] [] [] (Stage.mk ["original"] "structure_tensor")
     [⟨["structure_tensor"], "horizontal_blur"⟩,
      ⟨["horizontal_blur"], "blur_output"⟩,
      ⟨["blur_output"], "eigenvector_output"⟩,
      ⟨["original", "eigenvector_output"], "kuwahara_output"⟩]
     "original" rfl rfl rfl⟩

/-- C9, counterexample to the claim as stated: the store operation
`destroyTexture "original"` destroys the original entry, yet the derived
entry "structure_tensor" survives it. -/
theorem c9_destroy_original_counterexample :
    storeGet (destroyTexture [("original", (0 : ℕ)), ("structure_tensor", 1)]
      "original") "original" = none ∧
    storeGet (destroyTexture [("original", (0 : ℕ)), ("structure_tensor", 1)]
      "original") "structure_tensor" = some 1 := by
  constructor <;> rfl

/-- C9 (amended): the operations the program actually uses to destroy the
original image — `destroyAll` (called by `ImageEditorService.destroy`) and
`loadImage` (which calls `destroyAll` before re-creating "original") — leave
no derived entry in the store; `destroyTexture "original"` alone would not
invalidate derived keys, but it has no call site. -/
theorem c9_destruction_invalidates_derived {τ : Type} (σ : Store τ) (img : τ)
    (k : String) (hk : k ∈ derivedKeys) :
    storeGet (destroyAll σ) k = none ∧ storeGet (loadImage σ img) k = none := by
  fin_cases hk <;>
    exact ⟨rfl, rfl⟩

/-- Witness for C9 at the derived key "structure_tensor". -/
theorem c9_destruction_invalidates_derived_witness :
    "structure_tensor" ∈ derivedKeys ∧
    (storeGet (destroyAll [("original", (0 : ℕ))]) "structure_tensor" = none ∧
     storeGet (loadImage [("original", (0 : ℕ))] 1) "structure_tensor" = none) :=
  ⟨by decide,
   c9_destruction_invalidates_derived [("original", 0)] 1 ("structure_tensor")
     (by decide)⟩

/-- C6: for every pixel of the input image, the structure-tensor pass
converts samples to luminance with fixed weights (0.299, 0.587, 0.114) at
coordinates clamped into `[0,width) × [0,height)`, convolves the 3×3
neighborhood with the horizontal and vertical Sobel kernels to get `Sx` and
`Sy`, and emits `(Sx², Sy², Sx·Sy)` with no normalization by the kernel
sum. -/
theorem c6_structure_tensor (img : ℤ → ℤ → Vec3) (w h : ℕ) (cx cy : ℕ)
    (hx : cx < w) (hy : cy < h) :
    (∀ x y : ℤ, sampleLuminance img w h x y =
      img (min (max x 0) ((w : ℤ) - 1)) (min (max y 0) ((h : ℤ) - 1)) 0 * 0.299 +
      img (min (max x 0) ((w : ℤ) - 1)) (min (max y 0) ((h : ℤ) - 1)) 1 * 0.587 +
      img (min (max x 0) ((w : ℤ) - 1)) (min (max y 0) ((h : ℤ) - 1)) 2 * 0.114) ∧
    sobelGradX img w h cx cy =
      sampleLuminance img w h ((cx : ℤ) - 1) ((cy : ℤ) - 1) * (-1) +
      sampleLuminance img w h ((cx : ℤ) + 1) ((cy : ℤ) - 1) * 1 +
      sampleLuminance img w h ((cx : ℤ) - 1) (cy : ℤ) * (-2) +
      sampleLuminance img w h ((cx : ℤ) + 1) (cy : ℤ) * 2 +
      sampleLuminance img w h ((cx : ℤ) - 1) ((cy : ℤ) + 1) * (-1) +
      sampleLuminance img w h ((cx : ℤ) + 1) ((cy : ℤ) + 1) * 1 ∧
    sobelGradY img w h cx cy =
      sampleLuminance img w h ((cx : ℤ) - 1) ((cy : ℤ) - 1) * (-1) +
      sampleLuminance img w h (cx : ℤ) ((cy : ℤ) - 1) * (-2) +
      sampleLuminance img w h ((cx : ℤ) + 1) ((cy : ℤ) - 1) * (-1) +
      sampleLuminance img w h ((cx : ℤ) - 1) ((cy : ℤ) + 1) * 1 +
      sampleLuminance img w h (cx : ℤ) ((cy : ℤ) + 1) * 2 +
      sampleLuminance img w h ((cx : ℤ) + 1) ((cy : ℤ) + 1) * 1 ∧
    structureTensorMain img w h cx cy =
      some ![sobelGradX img w h cx cy * sobelGradX img w h cx cy,
             sobelGradY img w h cx cy * sobelGradY img w h cx cy,
             sobelGradX img w h cx cy * sobelGradY img w h cx cy, 1] := by
  refine ⟨fun x y => rfl, ?_, ?_, ?_⟩
  · simp only [sobelGradX, Fin.sum_univ_three, sobelX, Matrix.cons_val_zero,
      Matrix.cons_val_one, Matrix.head_cons, Matrix.cons_val_two, Matrix.tail_cons,
      Matrix.head_fin_const, Fin.val_zero, Fin.val_one, Fin.val_two, Fin.isValue,
      Nat.cast_zero, Nat.cast_one, Nat.cast_ofNat]
    norm_num
    ring_nf
  · simp only [sobelGradY, Fin.sum_univ_three, sobelY, Matrix.cons_val_zero,
      Matrix.cons_val_one, Matrix.head_cons, Matrix.cons_val_two, Matrix.tail_cons,
      Matrix.head_fin_const, Fin.val_zero, Fin.val_one, Fin.val_two, Fin.isValue,
      Nat.cast_zero, Nat.cast_one, Nat.cast_ofNat]
    norm_num
    ring_nf
  · rw [structureTensorMain, if_neg (by omega)]

/-- Witness for C6 on a 1×1 mid-gray image at pixel (0,0). -/
theorem c6_structure_tensor_witness :
    (0 : ℕ) < 1 ∧
    ((∀ x y : ℤ, sampleLuminance (constImage3 grayHalf) 1 1 x y =
      constImage3 grayHalf (min (max x 0) ((1 : ℕ) - 1 : ℤ))
          (min (max y 0) ((1 : ℕ) - 1 : ℤ)) 0 * 0.299 +
      constImage3 grayHalf (min (max x 0) ((1 : ℕ) - 1 : ℤ))
          (min (max y 0) ((1 : ℕ) - 1 : ℤ)) 1 * 0.587 +
      constImage3 grayHalf (min (max x 0) ((1 : ℕ) - 1 : ℤ))
          (min (max y 0) ((1 : ℕ) - 1 : ℤ)) 2 * 0.114) ∧
    sobelGradX (constImage3 grayHalf) 1 1 0 0 =
      sampleLuminance (constImage3 grayHalf) 1 1 ((0 : ℕ) - 1 : ℤ) ((0 : ℕ) - 1 : ℤ) * (-1) +
      sampleLuminance (constImage3 grayHalf) 1 1 ((0 : ℕ) + 1 : ℤ) ((0 : ℕ) - 1 : ℤ) * 1 +
      sampleLuminance (constImage3 grayHalf) 1 1 ((0 : ℕ) - 1 : ℤ) ((0 : ℕ) : ℤ) * (-2) +
      sampleLuminance (constImage3 grayHalf) 1 1 ((0 : ℕ) + 1 : ℤ) ((0 : ℕ) : ℤ) * 2 +
      sampleLuminance (constImage3 grayHalf) 1 1 ((0 : ℕ) - 1 : ℤ) ((0 : ℕ) + 1 : ℤ) * (-1) +
      sampleLuminance (constImage3 grayHalf) 1 1 ((0 : ℕ) + 1 : ℤ) ((0 : ℕ) + 1 : ℤ) * 1 ∧
    sobelGradY (constImage3 grayHalf) 1 1 0 0 =
      sampleLuminance (constImage3 grayHalf) 1 1 ((0 : ℕ) - 1 : ℤ) ((0 : ℕ) - 1 : ℤ) * (-1) +
      sampleLuminance (constImage3 grayHalf) 1 1 ((0 : ℕ) : ℤ) ((0 : ℕ) - 1 : ℤ) * (-2) +
      sampleLuminance (constImage3 grayHalf) 1 1 ((0 : ℕ) + 1 : ℤ) ((0 : ℕ) - 1 : ℤ) * (-1) +
      sampleLuminance (constImage3 grayHalf) 1 1 ((0 : ℕ) - 1 : ℤ) ((0 : ℕ) + 1 : ℤ) * 1 +
      sampleLuminance (constImage3 grayHalf) 1 1 ((0 : ℕ) : ℤ) ((0 : ℕ) + 1 : ℤ) * 2 +
      sampleLuminance (constImage3 grayHalf) 1 1 ((0 : ℕ) + 1 : ℤ) ((0 : ℕ) + 1 : ℤ) * 1 ∧
    structureTensorMain (constImage3 grayHalf) 1 1 0 0 =
      some ![sobelGradX (constImage3 grayHalf) 1 1 0 0 * sobelGradX (constImage3 grayHalf) 1 1 0 0,
             sobelGradY (constImage3 grayHalf) 1 1 0 0 * sobelGradY (constImage3 grayHalf) 1 1 0 0,
             sobelGradX (constImage3 grayHalf) 1 1 0 0 * sobelGradY (constImage3 grayHalf) 1 1 0 0,
             1]) :=
  ⟨Nat.one_pos, c6_structure_tensor (constImage3 grayHalf) 1 1 0 0 Nat.one_pos Nat.one_pos⟩

/-- C2: for every in-bounds pixel of the smoothed tensor image with
components `(G_xx, G_yy, G_xy)` in channels r/g/b, the eigen-analysis pass
computes `trace`, `det`, the non-negatively clamped `discriminant`,
`λ1 = trace/2 + √discriminant ≥ λ2 = trace/2 - √discriminant`, the
orientation `θ = 0.5·atan2(2·G_xy, G_xx - G_yy)`, the anisotropy
`clamp((λ1-λ2)/(λ1+λ2+ε), 0, 1)` — `0` whenever `λ1+λ2 < ε` — and writes
the 4-channel output `(cos θ, sin θ, anisotropy, λ1)`. -/
theorem c2_eigen_analysis (img : ℕ → ℕ → Vec4) (w h cx cy : ℕ)
    (hx : cx < w) (hy : cy < h)
    (gxx gyy gxy trace det disc lambda1 lambda2 theta anis : ℝ)
    (hgxx : gxx = img cx cy 0) (hgyy : gyy = img cx cy 1) (hgxy : gxy = img cx cy 2)
    (htrace : trace = gxx + gyy)
    (hdet : det = gxx * gyy - gxy * gxy)
    (hdisc : disc = max (trace * trace / 4 - det) 0)
    (hl1 : lambda1 = trace / 2 + Real.sqrt disc)
    (hl2 : lambda2 = trace / 2 - Real.sqrt disc)
    (htheta : theta = 0.5 * atan2 (2 * gxy) (gxx - gyy))
    (hanis : anis = if lambda1 + lambda2 < EPSILON then 0
      else wclamp ((lambda1 - lambda2) / (lambda1 + lambda2 + EPSILON)) 0 1) :
    eigenMain img w h cx cy = some ![Real.cos theta, Real.sin theta, anis, lambda1] ∧
    lambda2 ≤ lambda1 := by
  subst hgxx hgyy hgxy htrace hdet hdisc hl1 hl2 htheta hanis
  constructor
  · rw [eigenMain, if_neg (by omega)]
    simp only [eigenMain, computeEigenvalues, computeEigenvectorAngle, computeAnisotropy]
    have h1 : (img cx cy 0 + img cx cy 1) * (img cx cy 0 + img cx cy 1) * 0.25 -
        (img cx cy 0 * img cx cy 1 - img cx cy 2 * img cx cy 2) =
        (img cx cy 0 + img cx cy 1) * (img cx cy 0 + img cx cy 1) / 4 -
        (img cx cy 0 * img cx cy 1 - img cx cy 2 * img cx cy 2) := by ring
    have h2 : (img cx cy 0 + img cx cy 1) * 0.5 = (img cx cy 0 + img cx cy 1) / 2 := by
      ring
    rw [h1, h2]
  · have : 0 ≤ Real.sqrt (max ((img cx cy 0 + img cx cy 1) *
        (img cx cy 0 + img cx cy 1) / 4 -
        (img cx cy 0 * img cx cy 1 - img cx cy 2 * img cx cy 2)) 0) :=
      Real.sqrt_nonneg _
    linarith

/-- Witness for C2 on a 1×1 zero-tensor image: `λ1 = λ2 = 0`, `θ = 0`,
anisotropy 0, output `(cos 0, sin 0, 0, 0)`. -/
theorem c2_eigen_analysis_witness :
    (0 : ℕ) < 1 ∧
    (eigenMain (constImage4N ![0, 0, 0, 0]) 1 1 0 0 =
        some ![Real.cos 0, Real.sin 0, 0, 0] ∧ (0 : ℝ) ≤ 0) :=
  ⟨Nat.one_pos,
   c2_eigen_analysis (constImage4N ![0, 0, 0, 0]) 1 1 0 0 Nat.one_pos Nat.one_pos
     0 0 0 0 0 0 0 0 0 0
     (by simp [constImage4N])
     (by simp [constImage4N])
     (by simp [constImage4N])
     (by norm_num)
     (by norm_num)
     (by norm_num)
     (by simp)
     (by simp)
     (by
       simp only [atan2]
       have hz : (⟨0 - 0, 2 * 0⟩ : ℂ) = 0 := by
         refine Complex.ext ?_ ?_ <;> simp
       rw [hz, Complex.arg_zero, mul_zero])
     (by
       rw [if_pos]
       norm_num [EPSILON])⟩

/-- C5: for every pixel, with any valid `kernelSize ≥ 1`, the filter pass
derives the sampling ellipse semi-axes as
`a = kernelRadius · clamp((alpha+anisotropy)/max(alpha,ε), 0.1, 2.0)` and
`b = kernelRadius · clamp(max(alpha,ε)/max(alpha+anisotropy,ε), 0.1, 2.0)`
with `kernelRadius = kernelSize/2` (the extra `max(·, 1e-3)` safety clamp in
the code is inactive), and both axes are bounded away from zero
(`a, b ≥ 1/20`). -/
theorem c5_ellipse_axes (p : KuwaharaParamsGPU) (anisotropy : ℝ)
    (hk : 1 ≤ p.kernelSize) :
    ellipseAxisA p anisotropy =
      ((p.kernelSize : ℝ) / 2) * wclamp ((p.alpha + anisotropy) / max p.alpha EPS) 0.1 2.0 ∧
    ellipseAxisB p anisotropy =
      ((p.kernelSize : ℝ) / 2) *
        wclamp (max p.alpha EPS / max (p.alpha + anisotropy) EPS) 0.1 2.0 ∧
    1 / 20 ≤ ellipseAxisA p anisotropy ∧
    1 / 20 ≤ ellipseAxisB p anisotropy := by
  have hkR : (1 : ℝ) / 2 ≤ (p.kernelSize : ℝ) * 0.5 := by
    have h1 : (1 : ℝ) ≤ (p.kernelSize : ℝ) := by exact_mod_cast hk
    linarith
  have hc1 : (0.1 : ℝ) ≤ wclamp ((p.alpha + anisotropy) / max p.alpha EPS) 0.1 2.0 :=
    le_min (le_max_right _ _) (by norm_num)
  have hc2 : (0.1 : ℝ) ≤
      wclamp (max p.alpha EPS / max (p.alpha + anisotropy) EPS) 0.1 2.0 :=
    le_min (le_max_right _ _) (by norm_num)
  have hA : 1 / 20 ≤ (p.kernelSize : ℝ) * 0.5 *
      wclamp ((p.alpha + anisotropy) / max p.alpha EPS) 0.1 2.0 := by nlinarith
  have hB : 1 / 20 ≤ (p.kernelSize : ℝ) * 0.5 *
      wclamp (max p.alpha EPS / max (p.alpha + anisotropy) EPS) 0.1 2.0 := by nlinarith
  refine ⟨?_, ?_, ?_, ?_⟩
  · unfold ellipseAxisA
    rw [max_eq_left (le_trans (by norm_num) hA)]
    ring
  · unfold ellipseAxisB
    rw [max_eq_left (le_trans (by norm_num) hB)]
    ring
  · unfold ellipseAxisA
    exact le_trans hA (le_max_left _ _)
  · unfold ellipseAxisB
    exact le_trans hB (le_max_left _ _)

/-- Witness for C5 at `kernelSize = 4`, `alpha = 1`, `anisotropy = 0`. -/
theorem c5_ellipse_axes_witness :
    (1 : ℤ) ≤ (KuwaharaParamsGPU.mk 4 1 1 1 1 1 5).kernelSize ∧
    (ellipseAxisA (KuwaharaParamsGPU.mk 4 1 1 1 1 1 5) 0 =
      (((KuwaharaParamsGPU.mk 4 1 1 1 1 1 5).kernelSize : ℝ) / 2) *
        wclamp (((KuwaharaParamsGPU.mk 4 1 1 1 1 1 5).alpha + 0) /
          max (KuwaharaParamsGPU.mk 4 1 1 1 1 1 5).alpha EPS) 0.1 2.0 ∧
    ellipseAxisB (KuwaharaParamsGPU.mk 4 1 1 1 1 1 5) 0 =
      (((KuwaharaParamsGPU.mk 4 1 1 1 1 1 5).kernelSize : ℝ) / 2) *
        wclamp (max (KuwaharaParamsGPU.mk 4 1 1 1 1 1 5).alpha EPS /
          max ((KuwaharaParamsGPU.mk 4 1 1 1 1 1 5).alpha + 0) EPS) 0.1 2.0 ∧
    1 / 20 ≤ ellipseAxisA (KuwaharaParamsGPU.mk 4 1 1 1 1 1 5) 0 ∧
    1 / 20 ≤ ellipseAxisB (KuwaharaParamsGPU.mk 4 1 1 1 1 1 5) 0) :=
  ⟨by norm_num, c5_ellipse_axes (KuwaharaParamsGPU.mk 4 1 1 1 1 1 5) 0 (by norm_num)⟩

/-- C7: each smoothing invocation is a 1-D Gaussian convolution of radius
`kernelSize` with weight `exp(-x²/(2σ²))`, normalized by the sum of the
sampled weights, sampling coordinates clamped into bounds; the first
invocation convolves along the row axis, the second along the column axis;
and in the strictly sequential `runKuwahara` stage order the horizontal pass
(stage 1) writes the "horizontal_blur" key that the vertical pass (stage 2)
reads. -/
theorem c7_separable_gaussian_blur (img : ℤ → ℤ → Vec4) (w h : ℕ) (cx cy : ℕ)
    (p : KuwaharaParamsGPU) (hx : cx < w) (hy : cy < h) :
    blurHorizontalMain img w h cx cy p = some (fun i =>
      (∑ dx ∈ Finset.Icc (-p.kernelSize) p.kernelSize,
        Real.exp (-((dx : ℝ) * (dx : ℝ)) / (2 * (p.sigma * p.sigma))) *
          img (min (max ((cx : ℤ) + dx) 0) ((w : ℤ) - 1)) (cy : ℤ) i) /
      (∑ dx ∈ Finset.Icc (-p.kernelSize) p.kernelSize,
        Real.exp (-((dx : ℝ) * (dx : ℝ)) / (2 * (p.sigma * p.sigma))))) ∧
    blurVerticalMain img w h cx cy p = some (fun i =>
      (∑ dy ∈ Finset.Icc (-p.kernelSize) p.kernelSize,
        Real.exp (-((dy : ℝ) * (dy : ℝ)) / (2 * (p.sigma * p.sigma))) *
          img (cx : ℤ) (min (max ((cy : ℤ) + dy) 0) ((h : ℤ) - 1)) i) /
      (∑ dy ∈ Finset.Icc (-p.kernelSize) p.kernelSize,
        Real.exp (-((dy : ℝ) * (dy : ℝ)) / (2 * (p.sigma * p.sigma))))) ∧
    kuwaharaStages.get? 1 = some ⟨["structure_tensor"], "horizontal_blur"⟩ ∧
    kuwaharaStages.get? 2 = some ⟨["horizontal_blur"], "blur_output"⟩ := by
  refine ⟨?_, ?_, rfl, rfl⟩
  · rw [blurHorizontalMain, if_neg (by omega)]
    congr 1
    funext i
    simp only [horizontalBlur, gaussianWeight, iclamp, Finset.sum_apply,
      Pi.smul_apply, smul_eq_mul]
  · rw [blurVerticalMain, if_neg (by omega)]
    congr 1
    funext i
    simp only [verticalBlur, gaussianWeight, iclamp, Finset.sum_apply,
      Pi.smul_apply, smul_eq_mul]

/-- Witness for C7 on a 1×1 image with `kernelSize = 1`, `sigma = 1`. -/
theorem c7_separable_gaussian_blur_witness :
    (0 : ℕ) < 1 ∧
    (blurHorizontalMain (constImage4 ![1, 0, 0, 1]) 1 1 0 0
        (KuwaharaParamsGPU.mk 1 1 1 1 1 1 1) = some (fun i =>
      (∑ dx ∈ Finset.Icc (-(KuwaharaParamsGPU.mk 1 1 1 1 1 1 1).kernelSize)
          (KuwaharaParamsGPU.mk 1 1 1 1 1 1 1).kernelSize,
        Real.exp (-((dx : ℝ) * (dx : ℝ)) /
            (2 * ((KuwaharaParamsGPU.mk 1 1 1 1 1 1 1).sigma *
              (KuwaharaParamsGPU.mk 1 1 1 1 1 1 1).sigma))) *
          constImage4 ![1, 0, 0, 1]
            (min (max (((0 : ℕ) : ℤ) + dx) 0) (((1 : ℕ) : ℤ) - 1)) ((0 : ℕ) : ℤ) i) /
      (∑ dx ∈ Finset.Icc (-(KuwaharaParamsGPU.mk 1 1 1 1 1 1 1).kernelSize)
          (KuwaharaParamsGPU.mk 1 1 1 1 1 1 1).kernelSize,
        Real.exp (-((dx : ℝ) * (dx : ℝ)) /
            (2 * ((KuwaharaParamsGPU.mk 1 1 1 1 1 1 1).sigma *
              (KuwaharaParamsGPU.mk 1 1 1 1 1 1 1).sigma))))) ∧
    blurVerticalMain (constImage4 ![1, 0, 0, 1]) 1 1 0 0
        (KuwaharaParamsGPU.mk 1 1 1 1 1 1 1) = some (fun i =>
      (∑ dy ∈ Finset.Icc (-(KuwaharaParamsGPU.mk 1 1 1 1 1 1 1).kernelSize)
          (KuwaharaParamsGPU.mk 1 1 1 1 1 1 1).kernelSize,
        Real.exp (-((dy : ℝ) * (dy : ℝ)) /
            (2 * ((KuwaharaParamsGPU.mk 1 1 1 1 1 1 1).sigma *
              (KuwaharaParamsGPU.mk 1 1 1 1 1 1 1).sigma))) *
          constImage4 ![1, 0, 0, 1]
            (((0 : ℕ) : ℤ)) (min (max (((0 : ℕ) : ℤ) + dy) 0) (((1 : ℕ) : ℤ) - 1)) i) /
      (∑ dy ∈ Finset.Icc (-(KuwaharaParamsGPU.mk 1 1 1 1 1 1 1).kernelSize)
          (KuwaharaParamsGPU.mk 1 1 1 1 1 1 1).kernelSize,
        Real.exp (-((dy : ℝ) * (dy : ℝ)) /
            (2 * ((KuwaharaParamsGPU.mk 1 1 1 1 1 1 1).sigma *
              (KuwaharaParamsGPU.mk 1 1 1 1 1 1 1).sigma))))) ∧
    kuwaharaStages.get? 1 = some ⟨["structure_tensor"], "horizontal_blur"⟩ ∧
    kuwaharaStages.get? 2 = some ⟨["horizontal_blur"], "blur_output"⟩) :=
  ⟨Nat.one_pos,
   c7_separable_gaussian_blur (constImage4 ![1, 0, 0, 1]) 1 1 0 0
     (KuwaharaParamsGPU.mk 1 1 1 1 1 1 1) Nat.one_pos Nat.one_pos⟩

/-- C3 (amended): for every accepted sample offset `v` inside the unit circle
*whose 8 polynomial sector weights have sum above `EPS`*, the weights over
the 4 cardinal and 4 diagonal (45°-rotated) directions are each
`max(0, projection + (zeta - eta·axis²))²` with
`eta = (zeta + cos(zeroCrossing))/sin²(zeroCrossing)` when
`|sin(zeroCrossing)| > EPS` and `eta = zeta` otherwise; the normalized
weights sum to 1; and the sample adds to each sector the normalized weight
times the Gaussian falloff `exp(-3.125·|v|²)`, accumulated into the weighted
color sum, weighted squared-color sum, and weight sum. -/
theorem c3_polynomial_sector_weights (vx vy : ℝ) (color : Vec3)
    (zeta zeroCrossing eta : ℝ)
    (heta : eta = computeEta zeta zeroCrossing)
    (_hv : vx * vx + vy * vy ≤ 1)
    (hsum : EPS < ∑ k : Fin 8, computePolynomialWeights vx vy zeta eta k) :
    ((|Real.sin zeroCrossing| > EPS →
        eta = (zeta + Real.cos zeroCrossing) /
          (Real.sin zeroCrossing * Real.sin zeroCrossing)) ∧
     (¬ |Real.sin zeroCrossing| > EPS → eta = zeta)) ∧
    (computePolynomialWeights vx vy zeta eta 0 =
        max 0 (vy + (zeta - eta * vx ^ 2)) ^ 2 ∧
     computePolynomialWeights vx vy zeta eta 2 =
        max 0 (-vx + (zeta - eta * vy ^ 2)) ^ 2 ∧
     computePolynomialWeights vx vy zeta eta 4 =
        max 0 (-vy + (zeta - eta * vx ^ 2)) ^ 2 ∧
     computePolynomialWeights vx vy zeta eta 6 =
        max 0 (vx + (zeta - eta * vy ^ 2)) ^ 2) ∧
    (∀ rx ry : ℝ, rx = SQRT2_OVER_2 * (vx - vy) → ry = SQRT2_OVER_2 * (vx + vy) →
      computePolynomialWeights vx vy zeta eta 1 =
          max 0 (ry + (zeta - eta * rx ^ 2)) ^ 2 ∧
      computePolynomialWeights vx vy zeta eta 3 =
          max 0 (-rx + (zeta - eta * ry ^ 2)) ^ 2 ∧
      computePolynomialWeights vx vy zeta eta 5 =
          max 0 (-ry + (zeta - eta * rx ^ 2)) ^ 2 ∧
      computePolynomialWeights vx vy zeta eta 7 =
          max 0 (rx + (zeta - eta * ry ^ 2)) ^ 2) ∧
    (∑ k : Fin 8, computePolynomialWeights vx vy zeta eta k /
        (∑ j : Fin 8, computePolynomialWeights vx vy zeta eta j)) = 1 ∧
    (∀ k : Fin 8, sampleDelta vx vy color zeta eta k =
      (fun i => wclamp (color i) 0 1 *
        (computePolynomialWeights vx vy zeta eta k /
          (∑ j : Fin 8, computePolynomialWeights vx vy zeta eta j) *
            Real.exp (-3.125 * (vx * vx + vy * vy))),
       fun i => wclamp (color i) 0 1 * wclamp (color i) 0 1 *
        (computePolynomialWeights vx vy zeta eta k /
          (∑ j : Fin 8, computePolynomialWeights vx vy zeta eta j) *
            Real.exp (-3.125 * (vx * vx + vy * vy))),
       computePolynomialWeights vx vy zeta eta k /
          (∑ j : Fin 8, computePolynomialWeights vx vy zeta eta j) *
            Real.exp (-3.125 * (vx * vx + vy * vy)))) := by
  have hS : (0 : ℝ) < ∑ j : Fin 8, computePolynomialWeights vx vy zeta eta j :=
    lt_trans (by norm_num [EPS]) hsum
  refine ⟨⟨?_, ?_⟩, ⟨?_, ?_, ?_, ?_⟩, ?_, ?_, ?_⟩
  · intro hsin
    rw [heta, computeEta, if_pos hsin]
  · intro hsin
    rw [heta, computeEta, if_neg hsin]
  · simp only [computePolynomialWeights]
    ring_nf
  · simp only [computePolynomialWeights]
    ring_nf
  · simp only [computePolynomialWeights]
    ring_nf
  · simp only [computePolynomialWeights]
    ring_nf
  · intro rx ry hrx hry
    subst hrx hry
    refine ⟨?_, ?_, ?_, ?_⟩ <;>
      · simp only [computePolynomialWeights]
        ring_nf
  · rw [← Finset.sum_div]
    exact div_self (ne_of_gt hS)
  · intro k
    simp only [sampleDelta]
    rw [if_neg (not_le.mpr hsum)]

/-- Witness for C3: the center offset `(0,0)` with `zeta = 1`,
`zeroCrossing = π/2` is accepted, has polynomial weight sum `8 > EPS`, and
its normalized weights sum to 1. -/
theorem c3_polynomial_sector_weights_witness :
    ((0 : ℝ) * 0 + 0 * 0 ≤ 1) ∧
    EPS < (∑ k : Fin 8, computePolynomialWeights 0 0 1 (computeEta 1 (Real.pi / 2)) k) ∧
    (∑ k : Fin 8, computePolynomialWeights 0 0 1 (computeEta 1 (Real.pi / 2)) k /
        (∑ j : Fin 8, computePolynomialWeights 0 0 1 (computeEta 1 (Real.pi / 2)) j)) = 1 := by
  have hsum : EPS <
      ∑ k : Fin 8, computePolynomialWeights 0 0 1 (computeEta 1 (Real.pi / 2)) k := by
    simp only [Fin.sum_univ_eight, computePolynomialWeights]
    norm_num [EPS, max_def]
  exact ⟨by norm_num, hsum,
    (c3_polynomial_sector_weights 0 0 grayHalf 1 (Real.pi / 2)
        (computeEta 1 (Real.pi / 2)) rfl (by norm_num) hsum).2.2.2.1⟩

/-- C3, counterexample to the claim as stated: the accepted center offset
`(0,0)` with `zeta = -1`, `zeroCrossing = π/2` (hence `eta = -1`) has all 8
polynomial sector weights equal to 0, so they cannot be and are not
normalized to sum to 1 (the normalized sum is 0), and the sample is skipped:
it accumulates nothing into any sector. -/
theorem c3_zero_weight_sample_counterexample :
    ((0 : ℝ) * 0 + 0 * 0 ≤ 1) ∧
    computeEta (-1) (Real.pi / 2) = -1 ∧
    (∑ k : Fin 8, computePolynomialWeights 0 0 (-1) (computeEta (-1) (Real.pi / 2)) k /
        (∑ j : Fin 8, computePolynomialWeights 0 0 (-1) (computeEta (-1) (Real.pi / 2)) j)) ≠ 1 ∧
    sampleDelta 0 0 grayHalf (-1) (computeEta (-1) (Real.pi / 2)) = 0 := by
  have heta : computeEta (-1) (Real.pi / 2) = -1 := by
    rw [computeEta]
    rw [if_pos]
    · norm_num [Real.sin_pi_div_two, Real.cos_pi_div_two]
    · norm_num [Real.sin_pi_div_two, EPS]
  have hW : ∀ k : Fin 8,
      computePolynomialWeights 0 0 (-1) (computeEta (-1) (Real.pi / 2)) k = 0 := by
    intro k
    rw [heta]
    fin_cases k <;>
      · simp only [computePolynomialWeights]
        norm_num [max_def]
  have hsum0 :
      (∑ k : Fin 8, computePolynomialWeights 0 0 (-1) (computeEta (-1) (Real.pi / 2)) k)
        = 0 :=
    Finset.sum_eq_zero (fun k _ => hW k)
  refine ⟨by norm_num, heta, ?_, ?_⟩
  · have hz : (∑ k : Fin 8,
        computePolynomialWeights 0 0 (-1) (computeEta (-1) (Real.pi / 2)) k /
        (∑ j : Fin 8, computePolynomialWeights 0 0 (-1) (computeEta (-1) (Real.pi / 2)) j))
          = 0 :=
      Finset.sum_eq_zero (fun k _ => by rw [hW k, zero_div])
    rw [hz]
    norm_num
  · simp only [sampleDelta]
    rw [if_pos]
    rw [hsum0]
    norm_num [EPS]

/-- Helper: a selection weight `1/(1 + b^e)` with non-negative base is
non-negative. -/
theorem selW_nonneg (b e : ℝ) (hb : 0 ≤ b) : 0 ≤ 1 / (1 + b ^ e) := by
  have hx : 0 ≤ b ^ e := Real.rpow_nonneg hb e
  have h1 : (0 : ℝ) < 1 + b ^ e := by linarith
  exact le_of_lt (div_pos one_pos h1)

/-- Helper: every sector's selection weight, as returned by
`sectorContribution`, is non-negative. -/
theorem sectorContribution_snd_nonneg (p : KuwaharaParamsGPU) (s : SectorAcc) :
    0 ≤ (sectorContribution p s).2 := by
  simp only [sectorContribution]
  by_cases hk : s.2.2 > EPS
  · rw [if_pos hk]
    exact selW_nonneg _ _ (le_max_right _ _)
  · rw [if_neg hk]

/-- C4: for every pixel, each sector with accumulated weight above `EPS`
receives selection weight `1/(1 + max(0, hardness·1000·sigma2)^(sharpness/2))`
where `sigma2` is the channel-summed, non-negatively clamped weighted
variance `E[x²] - E[x]²` of that sector; when the total selection weight
exceeds `EPS` the final color is the clamped average of the sector means
weighted by these selection weights — exactly that average whenever the
sector means lie in `[0,1]`, as accumulated saturated colors do; and when
the total selection weight is `≤ EPS` the output pixel is the untouched
original pixel color (its channels lying in `[0,1]`). -/
theorem c4_selection_weight_blend (p : KuwaharaParamsGPU)
    (sectors : Fin 8 → SectorAcc) (orig : Vec3)
    (horig : ∀ i, 0 ≤ orig i ∧ orig i ≤ 1) :
    (∀ k : Fin 8, EPS < (sectors k).2.2 →
      (sectorContribution p (sectors k)).2 =
        1 / (1 + max 0 (p.hardness * 1000 *
          (max ((sectors k).2.1 0 / (sectors k).2.2 -
              (sectors k).1 0 / (sectors k).2.2 * ((sectors k).1 0 / (sectors k).2.2)) 0 +
           max ((sectors k).2.1 1 / (sectors k).2.2 -
              (sectors k).1 1 / (sectors k).2.2 * ((sectors k).1 1 / (sectors k).2.2)) 0 +
           max ((sectors k).2.1 2 / (sectors k).2.2 -
              (sectors k).1 2 / (sectors k).2.2 * ((sectors k).1 2 / (sectors k).2.2)) 0)) ^
            (p.sharpness / 2))) ∧
    (EPS < ∑ k : Fin 8, (sectorContribution p (sectors k)).2 →
      ∀ i, kuwaharaBlend p sectors orig i =
        wclamp ((∑ k : Fin 8, (sectorContribution p (sectors k)).2 *
            ((sectors k).1 i / (sectors k).2.2)) /
          (∑ k : Fin 8, (sectorContribution p (sectors k)).2)) 0 1) ∧
    (EPS < ∑ k : Fin 8, (sectorContribution p (sectors k)).2 →
      (∀ k : Fin 8, EPS < (sectors k).2.2 →
        ∀ i, 0 ≤ (sectors k).1 i / (sectors k).2.2 ∧
          (sectors k).1 i / (sectors k).2.2 ≤ 1) →
      ∀ i, kuwaharaBlend p sectors orig i =
        (∑ k : Fin 8, (sectorContribution p (sectors k)).2 *
            ((sectors k).1 i / (sectors k).2.2)) /
          (∑ k : Fin 8, (sectorContribution p (sectors k)).2)) ∧
    (¬ EPS < ∑ k : Fin 8, (sectorContribution p (sectors k)).2 →
      kuwaharaBlend p sectors orig = orig) := by
  have hzero : ∀ k : Fin 8, ¬ (sectors k).2.2 > EPS →
      sectorContribution p (sectors k) = (0, 0) := by
    intro k hk
    simp only [sectorContribution]
    rw [if_neg hk]
  have hb : EPS < ∑ k : Fin 8, (sectorContribution p (sectors k)).2 →
      ∀ i, kuwaharaBlend p sectors orig i =
        wclamp ((∑ k : Fin 8, (sectorContribution p (sectors k)).2 *
            ((sectors k).1 i / (sectors k).2.2)) /
          (∑ k : Fin 8, (sectorContribution p (sectors k)).2)) 0 1 := by
    intro ht i
    simp only [kuwaharaBlend]
    rw [if_pos ht]
    have hterm : ∀ k : Fin 8, (sectorContribution p (sectors k)).1 i =
        (sectorContribution p (sectors k)).2 *
          ((sectors k).1 i / (sectors k).2.2) := by
      intro k
      by_cases hk : (sectors k).2.2 > EPS
      · simp only [sectorContribution]
        rw [if_pos hk]
        exact mul_comm _ _
      · rw [hzero k hk]
        simp
    rw [Finset.sum_apply]
    rw [Finset.sum_congr rfl (fun k _ => hterm k)]
  refine ⟨?_, hb, ?_, ?_⟩
  · intro k hk
    simp only [sectorContribution]
    rw [if_pos hk]
    have hs : (0 : ℝ) ≤
        max ((sectors k).2.1 0 / (sectors k).2.2 -
            (sectors k).1 0 / (sectors k).2.2 * ((sectors k).1 0 / (sectors k).2.2)) 0 +
          max ((sectors k).2.1 1 / (sectors k).2.2 -
            (sectors k).1 1 / (sectors k).2.2 * ((sectors k).1 1 / (sectors k).2.2)) 0 +
          max ((sectors k).2.1 2 / (sectors k).2.2 -
            (sectors k).1 2 / (sectors k).2.2 * ((sectors k).1 2 / (sectors k).2.2)) 0 :=
      add_nonneg (add_nonneg (le_max_right _ _) (le_max_right _ _)) (le_max_right _ _)
    have hbase : max (max p.hardness 0 * 1000 *
        (max ((sectors k).2.1 0 / (sectors k).2.2 -
            (sectors k).1 0 / (sectors k).2.2 * ((sectors k).1 0 / (sectors k).2.2)) 0 +
         max ((sectors k).2.1 1 / (sectors k).2.2 -
            (sectors k).1 1 / (sectors k).2.2 * ((sectors k).1 1 / (sectors k).2.2)) 0 +
         max ((sectors k).2.1 2 / (sectors k).2.2 -
            (sectors k).1 2 / (sectors k).2.2 * ((sectors k).1 2 / (sectors k).2.2)) 0)) 0 =
        max 0 (p.hardness * 1000 *
        (max ((sectors k).2.1 0 / (sectors k).2.2 -
            (sectors k).1 0 / (sectors k).2.2 * ((sectors k).1 0 / (sectors k).2.2)) 0 +
         max ((sectors k).2.1 1 / (sectors k).2.2 -
            (sectors k).1 1 / (sectors k).2.2 * ((sectors k).1 1 / (sectors k).2.2)) 0 +
         max ((sectors k).2.1 2 / (sectors k).2.2 -
            (sectors k).1 2 / (sectors k).2.2 * ((sectors k).1 2 / (sectors k).2.2)) 0)) := by
      rcases le_total 0 p.hardness with hh | hh
      · rw [max_eq_left hh, max_comm]
      · rw [max_eq_right hh, zero_mul, zero_mul, max_self, max_eq_left]
        exact mul_nonpos_of_nonpos_of_nonneg (by linarith) hs
    rw [hbase]
    have hexp : 0.5 * p.sharpness = p.sharpness / 2 := by ring
    rw [hexp]
  · intro ht hmean i
    rw [hb ht i]
    have htot : (0 : ℝ) < ∑ k : Fin 8, (sectorContribution p (sectors k)).2 :=
      lt_trans (by norm_num [EPS]) ht
    have hterm_le : ∀ k ∈ Finset.univ, (sectorContribution p (sectors k)).2 *
        ((sectors k).1 i / (sectors k).2.2) ≤ (sectorContribution p (sectors k)).2 := by
      intro k _
      by_cases hk : (sectors k).2.2 > EPS
      · exact mul_le_of_le_one_right (sectorContribution_snd_nonneg p (sectors k))
          ((hmean k hk i).2)
      · rw [hzero k hk]
        simp
    have hterm_nonneg : ∀ k ∈ Finset.univ,
        (0 : ℝ) ≤ (sectorContribution p (sectors k)).2 *
          ((sectors k).1 i / (sectors k).2.2) := by
      intro k _
      by_cases hk : (sectors k).2.2 > EPS
      · exact mul_nonneg (sectorContribution_snd_nonneg p (sectors k)) (hmean k hk i).1
      · rw [hzero k hk]
        simp
    have hnum_le : (∑ k : Fin 8, (sectorContribution p (sectors k)).2 *
        ((sectors k).1 i / (sectors k).2.2)) ≤
        ∑ k : Fin 8, (sectorContribution p (sectors k)).2 :=
      Finset.sum_le_sum hterm_le
    have hnum_nonneg : (0 : ℝ) ≤ ∑ k : Fin 8, (sectorContribution p (sectors k)).2 *
        ((sectors k).1 i / (sectors k).2.2) :=
      Finset.sum_nonneg hterm_nonneg
    rw [wclamp, max_eq_left (div_nonneg hnum_nonneg (le_of_lt htot)),
      min_eq_left ((div_le_one htot).mpr hnum_le)]
  · intro ht
    funext i
    simp only [kuwaharaBlend]
    rw [if_neg ht, wclamp, max_eq_left (horig i).1, min_eq_left (horig i).2]

/-- Witness for C4 with all-zero sector statistics: the total selection
weight is 0, so the output falls back to the untouched original mid-gray
pixel. -/
theorem c4_selection_weight_blend_witness :
    (∀ i, 0 ≤ grayHalf i ∧ grayHalf i ≤ 1) ∧
    (¬ EPS < ∑ k : Fin 8,
        (sectorContribution (KuwaharaParamsGPU.mk 4 1 1 1 1 1 5) ((fun _ => 0) k)).2) ∧
    kuwaharaBlend (KuwaharaParamsGPU.mk 4 1 1 1 1 1 5) (fun _ => 0) grayHalf = grayHalf := by
  have horig : ∀ i, 0 ≤ grayHalf i ∧ grayHalf i ≤ 1 := by
    intro i
    fin_cases i <;> constructor <;> norm_num [grayHalf]
  have ht : ¬ EPS < ∑ k : Fin 8,
      (sectorContribution (KuwaharaParamsGPU.mk 4 1 1 1 1 1 5) ((fun _ => 0) k)).2 := by
    have hz : ∀ k : Fin 8,
        (sectorContribution (KuwaharaParamsGPU.mk 4 1 1 1 1 1 5)
          ((fun _ => (0 : SectorAcc)) k)).2 = 0 := by
      intro k
      simp only [sectorContribution]
      rw [if_neg]
      norm_num [EPS]
    rw [Finset.sum_eq_zero (fun k _ => hz k)]
    norm_num [EPS]
  exact ⟨horig, ht,
    (c4_selection_weight_blend (KuwaharaParamsGPU.mk 4 1 1 1 1 1 5)
      (fun _ => 0) grayHalf horig).2.2.2 ht⟩
